import Mathlib

/-!
Verification of the extraction pipeline in
`src/netlify/functions/youtube-audio/index.py` (the `handler` function).

The handler is shallowly embedded as a total Lean function over an explicit
filesystem model and an environment record capturing every external effect
(probe results of candidate executables, the behaviour of the external
`yt-dlp` process, the in-process `yt_dlp` library, and the OS-level unlink
operations).  Python exceptions are modelled as values of `PyExc`; the
outer `try/except` clauses and the inner `try/finally` are modelled by
explicit plumbing of `Except PyExc Outcome` through `tryFinallyBlock`.
-/

set_option maxRecDepth 100000

namespace TonePath

/-! ## Filesystem model

An association list from absolute path to file contents (contents as a
string of bytes; the handler's final base64 encoding is a bijection on
payloads and is left out, so `Outcome.success` carries the raw bytes). -/

abbrev FS := List (String × String)

def fsExists (fs : FS) (p : String) : Bool :=
  (fs.find? (fun e => e.1 == p)).isSome

def fsRead (fs : FS) (p : String) : Option String :=
  (fs.find? (fun e => e.1 == p)).map (fun e => e.2)

def fsWrite (fs : FS) (p c : String) : FS :=
  (p, c) :: fs.filter (fun e => e.1 != p)

def fsUnlink (fs : FS) (p : String) : FS :=
  fs.filter (fun e => e.1 != p)

/-! ## Python string primitives used by the handler -/

/-- `stripPat pat l` returns `some rest` when `pat` is a prefix of `l`,
with `rest` the remainder after the pattern. -/
def stripPat : List Char → List Char → Option (List Char)
  | [], rest => some rest
  | _ :: _, [] => none
  | p :: ps, c :: cs => if p = c then stripPat ps cs else none

/-- Fuel-indexed core of Python `str.replace` (replace every
non-overlapping occurrence, scanning left to right).  The fuel is the
length of the subject string, which is enough whenever the pattern is
nonempty (as in the source, where the pattern is always `".mp3"`). -/
def strReplaceFuel (pat repl : List Char) : Nat → List Char → List Char
  | _, [] => []
  | 0, l => l
  | fuel + 1, c :: rest =>
    match pat, stripPat pat (c :: rest) with
    | _ :: _, some remainder => repl ++ strReplaceFuel pat repl fuel remainder
    | _, _ => c :: strReplaceFuel pat repl fuel rest

/-- Python `s.replace(pat, repl)` for a nonempty pattern. -/
def strReplace (s pat repl : String) : String :=
  ⟨strReplaceFuel pat.data repl.data s.data.length s.data⟩

/-- Python `s[:n]` (slice of the first `n` code points). -/
def pySlice (s : String) (n : Nat) : String :=
  ⟨s.data.take n⟩

/-- Python `s.lower()` (ASCII-faithful, which covers the extensions the
handler inspects). -/
def strToLower (s : String) : String :=
  ⟨s.data.map Char.toLower⟩

/-- `os.path.splitext`: split a path into root and extension.  The
extension starts at the last dot of the final path component, provided
that component has a non-dot character before that dot. -/
def splitExt (p : String) : String × String :=
  let cs := p.data
  let rev := cs.reverse
  let extRev := rev.takeWhile (fun c => !(c == '.' || c == '/'))
  match rev.drop extRev.length with
  | '.' :: afterDot =>
    let baseRev := afterDot.takeWhile (fun c => !(c == '/'))
    if baseRev.all (fun c => c == '.') then (p, "")
    else
      let extLen := extRev.length + 1
      (⟨cs.take (cs.length - extLen)⟩, ⟨cs.drop (cs.length - extLen)⟩)
  | _ => (p, "")

/-- `os.path.join(d, n)` for a relative second component. -/
def osPathJoin (d n : String) : String := d ++ "/" ++ n

/-- Python `repr` of a string, as it appears inside `str(list)`
(quote-escaping is irrelevant for the paths and flags involved). -/
def pyStrRepr (s : String) : String := "'" ++ s ++ "'"

/-- Python `str` of a list of strings. -/
def pyListRepr (l : List String) : String :=
  "[" ++ String.intercalate ", " (l.map pyStrRepr) ++ "]"

/-- `str(subprocess.CalledProcessError(code, cmd))`. -/
def cpeStr (cmd : List String) (code : Int) : String :=
  "Command '" ++ pyListRepr cmd ++ "' returned non-zero exit status "
    ++ toString code ++ "."

/-- `str(subprocess.TimeoutExpired(cmd, secs))`. -/
def teStr (cmd : List String) (secs : Nat) : String :=
  "Command '" ++ pyListRepr cmd ++ "' timed out after " ++ toString secs
    ++ " seconds"

/-- `str(FileNotFoundError)` as raised by `open` on a missing path. -/
def fnfStr (p : String) : String :=
  "[Errno 2] No such file or directory: '" ++ p ++ "'"

/-! ## Environment: every external effect the handler observes -/

/-- Result of the bounded liveness check
`subprocess.run([path, '--version'], timeout=5)` on one candidate:
exit status zero, nonzero exit status, `TimeoutExpired`, or a launch
failure (`FileNotFoundError` / `OSError`). -/
inductive CheckResult
  | exitZero
  | exitNonzero
  | timedOut
  | launchFail
deriving DecidableEq

/-- Result of the extraction subprocess
(`subprocess.run([...], check=True, timeout=300)`): the process exited
with a status and captured stderr, or the 300-second timeout fired. -/
inductive ProcResult
  | exited (code : Int) (stderr : String)
  | timedOut
deriving DecidableEq

/-- Behaviour of `ydl.download([...])` in library mode: normal return, or
an exception with message `msg` (caught at the `except Exception` of the
module branch). -/
inductive LibResult
  | ok
  | raises (msg : String)
deriving DecidableEq

structure Env where
  /-- `os.path.dirname(sys.executable)` -/
  pythonBinDir : String
  /-- `shutil.which('yt-dlp')` (None when not found) -/
  whichResult : Option String
  /-- `os.path.exists` as observed during backend probing -/
  probeExists : String → Bool
  /-- liveness check on one candidate path -/
  check : String → CheckResult
  /-- base name of the `NamedTemporaryFile`; the allocated path is
  `tmpBase ++ ".mp3"` -/
  tmpBase : String
  /-- filesystem state when the request starts -/
  fs0 : FS
  /-- whether `import yt_dlp` succeeds -/
  importOk : Bool
  /-- behaviour of the library download call -/
  libResult : LibResult
  /-- filesystem effect of the library download call (applied whether or
  not it subsequently raises, modelling partial writes) -/
  libEffect : FS → FS
  /-- result of the external extraction subprocess -/
  extResult : ProcResult
  /-- filesystem effect of the external extraction subprocess -/
  extEffect : FS → FS
  /-- whether `os.unlink` fails on a given path during cleanup -/
  unlinkFails : String → Bool
  /-- `str` of the `OSError` raised by a failing unlink -/
  unlinkErrMsg : String → String

/-! ## Backend probe (source lines 37-65) -/

/-- The raw candidate list of line 38-45, before filtering. -/
def yt_dlp_paths_raw (env : Env) : List (Option String) :=
  [some (osPathJoin env.pythonBinDir "yt-dlp"),
   some (osPathJoin env.pythonBinDir "yt-dlp.exe"),
   some "/opt/homebrew/bin/yt-dlp",
   some "/usr/local/bin/yt-dlp",
   env.whichResult,
   some "yt-dlp"]

/-- `[p for p in yt_dlp_paths if p]` (line 48): drops `None` and the
falsy empty string. -/
def yt_dlp_paths (env : Env) : List String :=
  ((yt_dlp_paths_raw env).filterMap id).filter (fun p => p ≠ "")

/-- The probe loop of lines 51-65: a candidate is selected iff it passes
the existence gate (`path == 'yt-dlp' or os.path.exists(path)`) and its
version check exits with status zero; every other outcome of the gate or
of the check (nonzero exit, timeout, launch failure) continues to the
next candidate. -/
def probeLoop (env : Env) : List String → Option String
  | [] => none
  | path :: rest =>
    if (path == "yt-dlp" || env.probeExists path)
        && env.check path == CheckResult.exitZero then
      some path
    else
      probeLoop env rest

/-! ## Extensions and media types (source lines 87, 131-138, 158) -/

def known_exts : List String := [".m4a", ".webm", ".opus", ".mp3", ".mp4"]

def content_types : List (String × String) :=
  [(".mp3", "audio/mpeg"),
   (".m4a", "audio/mp4"),
   (".webm", "audio/webm"),
   (".opus", "audio/opus"),
   (".mp4", "audio/mp4")]

/-- `content_types.get(ext, 'audio/mpeg')` (line 138). -/
def contentTypeFor (ext : String) : String :=
  match content_types.find? (fun e => e.1 == ext) with
  | some e => e.2
  | none => "audio/mpeg"

/-! ## Exceptions and outcomes -/

/-- Python exceptions escaping the inner try block: `CalledProcessError`
from the checked subprocess, `TimeoutExpired` from its 300-second budget,
and `OSError`/`FileNotFoundError` from `open` or `os.unlink`. -/
inductive PyExc
  | calledProcessError (cmd : List String) (code : Int) (stderr : String)
  | timeoutExpired (cmd : List String) (secs : Nat)
  | osError (msg : String)
deriving DecidableEq

/-- One constructor per distinct return site of the handler.
`success ct fn body` is the 200 response of lines 143-151 (content type,
the filename inside `Content-Disposition`, and the payload bytes);
`errNoOutput` is line 94-97, `errBackendUnavailable` line 99-105,
`errModule m` line 107-113 (with `m` the truncated message field),
`errExtraction m` line 168-174, `errGeneric m` line 176-179 (with `m` the
`str(e)` placed after the literal `Error: ` prefix). -/
inductive Outcome
  | methodNotAllowed
  | invalidRequest
  | success (contentType filename body : String)
  | errNoOutput
  | errBackendUnavailable
  | errModule (message : String)
  | errExtraction (message : String)
  | errGeneric (message : String)
deriving DecidableEq

def Outcome.statusCode : Outcome → Nat
  | .methodNotAllowed => 405
  | .invalidRequest => 400
  | .success _ _ _ => 200
  | .errNoOutput => 500
  | .errBackendUnavailable => 500
  | .errModule _ => 500
  | .errExtraction _ => 500
  | .errGeneric _ => 500

/-- The diagnostic text surfaced to the caller by a failure outcome (the
`message` field for the module and subprocess failures, the text after
`Error: ` for the generic handler). -/
def Outcome.diagnostic : Outcome → Option String
  | .errModule m => some m
  | .errExtraction m => some m
  | .errGeneric m => some m
  | _ => none

/-! ## Request event -/

/-- Result of `json.loads(event.get('body', '{}'))` followed by
`.get('videoId')`: either the JSON parse raised (its `str(e)` recorded),
or it produced an optional identifier. -/
inductive BodyParse
  | malformed (errMsg : String)
  | parsed (videoId : Option String)
deriving DecidableEq

structure Event where
  httpMethod : String
  body : BodyParse

def postEvent (videoId : String) : Event :=
  ⟨"POST", BodyParse.parsed (some videoId)⟩

/-! ## Extraction phase (source lines 34-123) -/

/-- How the extract-and-resolve phase ends: an early `return` with an
outcome, a fall-through to the read step, or a raised exception. -/
inductive ExtractRes
  | earlyReturn (o : Outcome)
  | proceed
  | raised (e : PyExc)
deriving DecidableEq

/-- Lines 85-91: scan `base_name + ext` over the known extensions and
return the first candidate present on disk. -/
def scanExts (fs : FS) (base : String) : List String → Option String
  | [] => none
  | ext :: rest =>
    if fsExists fs (base ++ ext) then some (base ++ ext)
    else scanExts fs base rest

/-- Lines 34-123: probe the backend, then either run the library branch
(import check, download, output-file resolution) or the external
subprocess branch.  Returns the phase result, the current value of the
`audio_path` variable (possibly rebased by the resolution scan), and the
filesystem after the backend's effect. -/
def extractPhase (env : Env) (url audio_path : String) (fs : FS) :
    ExtractRes × String × FS :=
  match probeLoop env (yt_dlp_paths env) with
  | none =>
    if env.importOk = false then
      (ExtractRes.earlyReturn Outcome.errBackendUnavailable, audio_path, fs)
    else
      let fs2 := env.libEffect fs
      match env.libResult with
      | LibResult.raises msg =>
        (ExtractRes.earlyReturn (Outcome.errModule (pySlice msg 200)),
         audio_path, fs2)
      | LibResult.ok =>
        let audio_path2 :=
          if fsExists fs2 audio_path then audio_path
          else
            match scanExts fs2 (strReplace audio_path ".mp3" "") known_exts with
            | some candidate => candidate
            | none => audio_path
        if fsExists fs2 audio_path2 = false then
          (ExtractRes.earlyReturn Outcome.errNoOutput, audio_path2, fs2)
        else
          (ExtractRes.proceed, audio_path2, fs2)
  | some yt_dlp_cmd =>
    let cmd := [yt_dlp_cmd, "-x", "--audio-format", "mp3",
                "--audio-quality", "0", "-o", audio_path, url]
    let fs2 := env.extEffect fs
    match env.extResult with
    | ProcResult.exited code stderr =>
      if code = 0 then (ExtractRes.proceed, audio_path, fs2)
      else (ExtractRes.raised (PyExc.calledProcessError cmd code stderr),
            audio_path, fs2)
    | ProcResult.timedOut =>
      (ExtractRes.raised (PyExc.timeoutExpired cmd 300), audio_path, fs2)

/-! ## Read phase (source lines 125-151) -/

def readPhase (video_id audio_path : String) (fs : FS) :
    Except PyExc Outcome :=
  match fsRead fs audio_path with
  | none => Except.error (PyExc.osError (fnfStr audio_path))
  | some audio_data =>
    let ext := strToLower (splitExt audio_path).2
    let content_type := contentTypeFor ext
    Except.ok (Outcome.success content_type
      ("audio_" ++ video_id ++ ext) audio_data)

/-! ## Cleanup, the finally block (source lines 152-164) -/

/-- Lines 156-164: the sibling-extension loop.  Each unlink is wrapped in
`try/except OSError: pass`, so a failing unlink leaves the file in place
and the loop continues. -/
def cleanupSiblings (env : Env) (base audio_path : String) :
    List String → FS → FS
  | [], fs => fs
  | ext :: rest, fs =>
    let candidate := base ++ ext
    if fsExists fs candidate && candidate != audio_path then
      if env.unlinkFails candidate then
        cleanupSiblings env base audio_path rest fs
      else
        cleanupSiblings env base audio_path rest (fsUnlink fs candidate)
    else
      cleanupSiblings env base audio_path rest fs

/-- Lines 152-164: the whole finally block.  The first unlink (of
`audio_path` itself, line 154-155) is NOT wrapped in try/except: if it
fails the resulting `OSError` propagates out of the finally block (and
the sibling loop never runs), which is returned here as `some exc`. -/
def cleanup (env : Env) (audio_path : String) (fs : FS) :
    Option PyExc × FS :=
  if fsExists fs audio_path then
    if env.unlinkFails audio_path then
      (some (PyExc.osError (env.unlinkErrMsg audio_path)), fs)
    else
      (none, cleanupSiblings env (splitExt audio_path).1 audio_path
        known_exts (fsUnlink fs audio_path))
  else
    (none, cleanupSiblings env (splitExt audio_path).1 audio_path
      known_exts fs)

/-! ## The inner try/finally (source lines 34-164) -/

/-- Runs the extraction and read phases, then the finally block on the
current `audio_path`.  An exception raised by the finally block replaces
whatever result (return value or in-flight exception) the try suite
produced, per Python semantics. -/
def tryFinallyBlock (env : Env) (video_id url audio_path : String)
    (fs : FS) : Except PyExc Outcome × FS :=
  let step := extractPhase env url audio_path fs
  let coreRes : Except PyExc Outcome :=
    match step.1 with
    | ExtractRes.earlyReturn o => Except.ok o
    | ExtractRes.raised e => Except.error e
    | ExtractRes.proceed => readPhase video_id step.2.1 step.2.2
  let cl := cleanup env step.2.1 step.2.2
  match cl.1 with
  | some e => (Except.error e, cl.2)
  | none => (coreRes, cl.2)

/-! ## The handler (source lines 10-179) -/

/-- The full handler.  Returns the outcome and the final filesystem.
The outer `except subprocess.CalledProcessError` (lines 166-174) builds
its message from the captured stderr truncated to 200 characters, falling
back to the untruncated `str(e)` when stderr is empty (falsy); the outer
`except Exception` (lines 175-179) surfaces `str(e)` untruncated. -/
def handler (env : Env) (event : Event) : Outcome × FS :=
  if event.httpMethod != "POST" then
    (Outcome.methodNotAllowed, env.fs0)
  else
    match event.body with
    | BodyParse.malformed msg => (Outcome.errGeneric msg, env.fs0)
    | BodyParse.parsed none => (Outcome.invalidRequest, env.fs0)
    | BodyParse.parsed (some video_id) =>
      if video_id = "" then (Outcome.invalidRequest, env.fs0)
      else
        let youtube_url := "https://www.youtube.com/watch?v=" ++ video_id
        let audio_path := env.tmpBase ++ ".mp3"
        let fs1 := fsWrite env.fs0 audio_path ""
        match tryFinallyBlock env video_id youtube_url audio_path fs1 with
        | (Except.ok o, fs2) => (o, fs2)
        | (Except.error (PyExc.calledProcessError cmd code stderr), fs2) =>
          let msg := if stderr ≠ "" then pySlice stderr 200
                     else cpeStr cmd code
          (Outcome.errExtraction msg, fs2)
        | (Except.error (PyExc.timeoutExpired cmd secs), fs2) =>
          (Outcome.errGeneric (teStr cmd secs), fs2)
        | (Except.error (PyExc.osError m), fs2) =>
          (Outcome.errGeneric m, fs2)

/-- The translation performed by the outer except clauses (lines
166-179) on an exception escaping the inner try/finally. -/
def excToOutcome : PyExc → Outcome
  | PyExc.calledProcessError cmd code stderr =>
    Outcome.errExtraction
      (if stderr ≠ "" then pySlice stderr 200 else cpeStr cmd code)
  | PyExc.timeoutExpired cmd secs => Outcome.errGeneric (teStr cmd secs)
  | PyExc.osError m => Outcome.errGeneric m

/-! ## Concrete environments for witnesses and counterexamples

`extEnv` models a host where `/usr/local/bin/yt-dlp` exists and answers
its version check, the in-process library is not importable, and the
external extraction succeeds while writing `<scratch-base>.m4a`. -/

def extEnv : Env := {
  pythonBinDir := "/usr/bin"
  whichResult := none
  probeExists := fun p => p == "/usr/local/bin/yt-dlp"
  check := fun p =>
    if p == "/usr/local/bin/yt-dlp" then CheckResult.exitZero
    else CheckResult.launchFail
  tmpBase := "/tmp/t1"
  fs0 := []
  importOk := false
  libResult := LibResult.ok
  libEffect := id
  extResult := ProcResult.exited 0 ""
  extEffect := fun fs => fsWrite fs "/tmp/t1.m4a" "M4ADATA"
  unlinkFails := fun _ => false
  unlinkErrMsg := fun _ => ""
}

/-- Same host, but the unlink of the resolved scratch file fails. -/
def c2FailEnv : Env := { extEnv with
  unlinkFails := fun p => p == "/tmp/t1.mp3"
  unlinkErrMsg := fun p => "[Errno 13] Permission denied: '" ++ p ++ "'" }

/-- A 100-character identifier, long enough that the stringified failed
command exceeds the 200-character truncation bound. -/
def longVid : String := ⟨List.replicate 100 'a'⟩

/-- The argument vector of the external extraction subprocess for
`longVid` under `extEnv`. -/
def longCmd : List String :=
  ["/usr/local/bin/yt-dlp", "-x", "--audio-format", "mp3",
   "--audio-quality", "0", "-o", "/tmp/t1.mp3",
   "https://www.youtube.com/watch?v=" ++ longVid]

/-- External backend exits 1 with empty stderr. -/
def c4Env : Env := { extEnv with extResult := ProcResult.exited 1 "" }

/-- External backend exits 1 with stderr `video unavailable`. -/
def c4sEnv : Env :=
  { extEnv with extResult := ProcResult.exited 1 "video unavailable" }

/-- External backend hits the 300-second timeout. -/
def c5Env : Env := { extEnv with extResult := ProcResult.timedOut }

/-- No executable candidate passes its check; the library imports but its
download call raises. -/
def c5wEnv : Env := { extEnv with
  check := fun _ => CheckResult.launchFail
  importOk := true
  libResult := LibResult.raises "boom" }

/-- No executable candidate passes its check and the library is not
importable: no backend at all. -/
def c6Env : Env := { extEnv with check := fun _ => CheckResult.launchFail }

/-- External backend exits 0 but deletes the scratch file and writes
nothing. -/
def c7Env : Env :=
  { extEnv with extEffect := fun fs => fsUnlink fs "/tmp/t1.mp3" }

/-- Library mode; the download call returns normally but deletes the
scratch file and writes nothing. -/
def c7wEnv : Env := { extEnv with
  check := fun _ => CheckResult.launchFail
  importOk := true
  libEffect := fun fs => fsUnlink fs "/tmp/t1.mp3" }

/-- Library mode; the download call returns normally and touches
nothing. -/
def c10Env : Env :=
  { extEnv with check := fun _ => CheckResult.launchFail, importOk := true }

/-! ## Helper lemmas about the filesystem model -/

lemma find_filter_beq_none (l : FS) (p : String) :
    (l.filter (fun e => e.1 != p)).find? (fun e => e.1 == p) = none := by
  induction l with
  | nil => rfl
  | cons e rest ih =>
    by_cases h : e.1 = p
    · simp only [List.filter_cons, h]
      simp only [bne_self_eq_false, Bool.false_eq_true, if_false]
      exact ih
    · simp [List.filter_cons, List.find?_cons, h, ih]

lemma find_filter_beq_ne (l : FS) (p q : String) (h : ¬ q = p) :
    (l.filter (fun e => e.1 != p)).find? (fun e => e.1 == q)
      = l.find? (fun e => e.1 == q) := by
  induction l with
  | nil => rfl
  | cons e rest ih =>
    by_cases he : e.1 = p
    · have hq : ¬ e.1 = q := by rw [he]; exact fun hc => h hc.symm
      have hb1 : (e.1 != p) = false := by simp [he]
      have hb2 : (e.1 == q) = false := by simp [hq]
      simp [List.filter_cons, List.find?_cons, hb1, hb2, ih]
    · have hb1 : (e.1 != p) = true := by simp [he]
      by_cases heq : e.1 = q
      · have hb2 : (e.1 == q) = true := by simp [heq]
        simp [List.filter_cons, List.find?_cons, hb1, hb2]
      · have hb2 : (e.1 == q) = false := by simp [heq]
        simp [List.filter_cons, List.find?_cons, hb1, hb2, ih]

lemma fsExists_fsWrite_self (fs : FS) (p c : String) :
    fsExists (fsWrite fs p c) p = true := by
  simp [fsExists, fsWrite, List.find?_cons]

lemma fsRead_fsWrite_self (fs : FS) (p c : String) :
    fsRead (fsWrite fs p c) p = some c := by
  simp [fsRead, fsWrite, List.find?_cons]

lemma fsExists_fsUnlink_self (fs : FS) (p : String) :
    fsExists (fsUnlink fs p) p = false := by
  simp [fsExists, fsUnlink, find_filter_beq_none]

lemma fsExists_fsUnlink_of_ne (fs : FS) (p q : String) (h : ¬ q = p) :
    fsExists (fsUnlink fs p) q = fsExists fs q := by
  simp [fsExists, fsUnlink, find_filter_beq_ne fs p q h]

lemma fsExists_fsUnlink_absent (fs : FS) (p q : String)
    (h : fsExists fs q = false) : fsExists (fsUnlink fs p) q = false := by
  by_cases hpq : q = p
  · subst hpq; exact fsExists_fsUnlink_self fs q
  · rw [fsExists_fsUnlink_of_ne fs p q hpq]; exact h

/-! ## Helper lemmas about scanning and cleanup -/

lemma scanExts_eq_none (fs : FS) (base : String) (exts : List String)
    (h : ∀ e ∈ exts, fsExists fs (base ++ e) = false) :
    scanExts fs base exts = none := by
  induction exts with
  | nil => rfl
  | cons e rest ih =>
    simp only [scanExts]
    rw [if_neg (by simp [h e (List.mem_cons_self _ _)])]
    exact ih (fun x hx => h x (List.mem_cons_of_mem _ hx))

lemma scanExts_mem (fs : FS) (base : String) (exts : List String) (c : String)
    (h : scanExts fs base exts = some c) : ∃ e ∈ exts, c = base ++ e := by
  induction exts with
  | nil => cases h
  | cons e rest ih =>
    simp only [scanExts] at h
    by_cases hex : fsExists fs (base ++ e) = true
    · rw [if_pos hex] at h
      exact ⟨e, List.mem_cons_self _ _, (Option.some_inj.mp h).symm⟩
    · rw [if_neg hex] at h
      obtain ⟨x, hx, hc⟩ := ih h
      exact ⟨x, List.mem_cons_of_mem _ hx, hc⟩

lemma cleanupSiblings_preserves_absent (env : Env) (base ap q : String)
    (exts : List String) (fs : FS) (h : fsExists fs q = false) :
    fsExists (cleanupSiblings env base ap exts fs) q = false := by
  induction exts generalizing fs with
  | nil => simp only [cleanupSiblings]; exact h
  | cons ext rest ih =>
    simp only [cleanupSiblings]
    by_cases hg : (fsExists fs (base ++ ext) && (base ++ ext) != ap) = true
    · rw [if_pos hg]
      by_cases hf : env.unlinkFails (base ++ ext) = true
      · rw [if_pos hf]; exact ih fs h
      · rw [if_neg hf]; exact ih _ (fsExists_fsUnlink_absent _ _ _ h)
    · rw [if_neg hg]; exact ih fs h

lemma cleanupSiblings_removes (env : Env) (base ap : String)
    (exts : List String) (fs : FS) (ext : String)
    (hmem : ext ∈ exts) (hne : ¬ (base ++ ext) = ap)
    (hnf : env.unlinkFails (base ++ ext) = false) :
    fsExists (cleanupSiblings env base ap exts fs) (base ++ ext) = false := by
  induction exts generalizing fs with
  | nil => cases hmem
  | cons e rest ih =>
    simp only [cleanupSiblings]
    rcases List.mem_cons.mp hmem with heq | hmem2
    · subst heq
      by_cases hex : fsExists fs (base ++ ext) = true
      · have hgate : (fsExists fs (base ++ ext) && (base ++ ext) != ap) = true := by
          simp [hex, hne]
        rw [if_pos hgate, if_neg (by simp [hnf])]
        exact cleanupSiblings_preserves_absent env base ap _ rest _
          (fsExists_fsUnlink_self fs _)
      · have hex2 : fsExists fs (base ++ ext) = false := by
          simpa using hex
        have hgate : ¬ (fsExists fs (base ++ ext) && (base ++ ext) != ap) = true := by
          simp [hex2]
        rw [if_neg hgate]
        exact cleanupSiblings_preserves_absent env base ap _ rest fs hex2
    · by_cases hg : (fsExists fs (base ++ e) && (base ++ e) != ap) = true
      · rw [if_pos hg]
        by_cases hf : env.unlinkFails (base ++ e) = true
        · rw [if_pos hf]; exact ih fs hmem2
        · rw [if_neg hf]; exact ih _ hmem2
      · rw [if_neg hg]; exact ih fs hmem2

lemma cleanupSiblings_noop (env : Env) (base ap : String) (exts : List String)
    (fs : FS) (h : ∀ e ∈ exts, fsExists fs (base ++ e) = false) :
    cleanupSiblings env base ap exts fs = fs := by
  induction exts with
  | nil => rfl
  | cons e rest ih =>
    simp only [cleanupSiblings]
    rw [if_neg (by simp [h e (List.mem_cons_self _ _)])]
    exact ih (fun x hx => h x (List.mem_cons_of_mem _ hx))

lemma cleanup_fst_of_unlinkOk (env : Env) (ap : String) (fs : FS)
    (h : env.unlinkFails ap = false) : (cleanup env ap fs).1 = none := by
  unfold cleanup
  by_cases hex : fsExists fs ap = true
  · rw [if_pos hex, if_neg (by simp [h])]
  · rw [if_neg hex]

lemma cleanup_fst_of_absent (env : Env) (ap : String) (fs : FS)
    (h : fsExists fs ap = false) : (cleanup env ap fs).1 = none := by
  unfold cleanup
  rw [if_neg (by simp [h])]

lemma cleanup_of_fail (env : Env) (ap : String) (fs : FS)
    (hex : fsExists fs ap = true) (hf : env.unlinkFails ap = true) :
    cleanup env ap fs = (some (PyExc.osError (env.unlinkErrMsg ap)), fs) := by
  unfold cleanup
  rw [if_pos hex, if_pos hf]

lemma cleanup_removes (env : Env) (ap : String) (fs : FS)
    (hnf : ∀ p, env.unlinkFails p = false) (ext : String)
    (hmem : ext ∈ known_exts) :
    fsExists (cleanup env ap fs).2 ((splitExt ap).1 ++ ext) = false := by
  unfold cleanup
  by_cases hex : fsExists fs ap = true
  · rw [if_pos hex, if_neg (by simp [hnf ap])]
    by_cases hne : ((splitExt ap).1 ++ ext) = ap
    · exact cleanupSiblings_preserves_absent env _ ap _ known_exts _
        (by rw [hne]; exact fsExists_fsUnlink_self fs ap)
    · exact cleanupSiblings_removes env _ ap known_exts _ ext hmem hne (hnf _)
  · rw [if_neg hex]
    by_cases hne : ((splitExt ap).1 ++ ext) = ap
    · exact cleanupSiblings_preserves_absent env _ ap _ known_exts fs
        (by rw [hne]; simpa using hex)
    · exact cleanupSiblings_removes env _ ap known_exts fs ext hmem hne (hnf _)

lemma cleanup_noop (env : Env) (ap : String) (fs : FS)
    (h1 : fsExists fs ap = false)
    (h2 : ∀ e ∈ known_exts, fsExists fs ((splitExt ap).1 ++ e) = false) :
    cleanup env ap fs = (none, fs) := by
  unfold cleanup
  rw [if_neg (by simp [h1]), cleanupSiblings_noop env _ ap known_exts fs h2]

/-! ## Reduction lemmas for the extraction phase -/

lemma extractPhase_ext_ok (env : Env) (url ap : String) (fs : FS)
    (cmdPath st : String)
    (hprobe : probeLoop env (yt_dlp_paths env) = some cmdPath)
    (hres : env.extResult = ProcResult.exited 0 st) :
    extractPhase env url ap fs
      = (ExtractRes.proceed, ap, env.extEffect fs) := by
  unfold extractPhase
  rw [hprobe, hres]
  simp

lemma extractPhase_ext_fail (env : Env) (url ap : String) (fs : FS)
    (cmdPath stderr : String) (code : Int)
    (hprobe : probeLoop env (yt_dlp_paths env) = some cmdPath)
    (hres : env.extResult = ProcResult.exited code stderr)
    (hc : ¬ code = 0) :
    extractPhase env url ap fs
      = (ExtractRes.raised (PyExc.calledProcessError
          [cmdPath, "-x", "--audio-format", "mp3", "--audio-quality", "0",
           "-o", ap, url] code stderr),
         ap, env.extEffect fs) := by
  unfold extractPhase
  rw [hprobe, hres]
  simp [hc]

lemma extractPhase_ext_timeout (env : Env) (url ap : String) (fs : FS)
    (cmdPath : String)
    (hprobe : probeLoop env (yt_dlp_paths env) = some cmdPath)
    (hres : env.extResult = ProcResult.timedOut) :
    extractPhase env url ap fs
      = (ExtractRes.raised (PyExc.timeoutExpired
          [cmdPath, "-x", "--audio-format", "mp3", "--audio-quality", "0",
           "-o", ap, url] 300),
         ap, env.extEffect fs) := by
  unfold extractPhase
  rw [hprobe, hres]

lemma extractPhase_noBackend (env : Env) (url ap : String) (fs : FS)
    (hprobe : probeLoop env (yt_dlp_paths env) = none)
    (himp : env.importOk = false) :
    extractPhase env url ap fs
      = (ExtractRes.earlyReturn Outcome.errBackendUnavailable, ap, fs) := by
  unfold extractPhase
  rw [hprobe]
  simp [himp]

lemma extractPhase_libRaises (env : Env) (url ap : String) (fs : FS)
    (m : String)
    (hprobe : probeLoop env (yt_dlp_paths env) = none)
    (himp : env.importOk = true)
    (hlib : env.libResult = LibResult.raises m) :
    extractPhase env url ap fs
      = (ExtractRes.earlyReturn (Outcome.errModule (pySlice m 200)),
         ap, env.libEffect fs) := by
  unfold extractPhase
  rw [hprobe]
  simp [himp, hlib]

lemma extractPhase_lib_present (env : Env) (url ap : String) (fs : FS)
    (hprobe : probeLoop env (yt_dlp_paths env) = none)
    (himp : env.importOk = true)
    (hlib : env.libResult = LibResult.ok)
    (hex : fsExists (env.libEffect fs) ap = true) :
    extractPhase env url ap fs
      = (ExtractRes.proceed, ap, env.libEffect fs) := by
  unfold extractPhase
  rw [hprobe]
  simp [himp, hlib, hex]

lemma extractPhase_lib_none (env : Env) (url ap : String) (fs : FS)
    (hprobe : probeLoop env (yt_dlp_paths env) = none)
    (himp : env.importOk = true)
    (hlib : env.libResult = LibResult.ok)
    (hap : fsExists (env.libEffect fs) ap = false)
    (hscan : ∀ e ∈ known_exts,
      fsExists (env.libEffect fs) (strReplace ap ".mp3" "" ++ e) = false) :
    extractPhase env url ap fs
      = (ExtractRes.earlyReturn Outcome.errNoOutput, ap, env.libEffect fs) := by
  unfold extractPhase
  rw [hprobe]
  simp [himp, hlib, hap, scanExts_eq_none _ _ _ hscan]

/-- The `audio_path` variable as it stands when the finally block runs:
either unchanged, or rebased by the resolution scan to
`base_name + ext` for one of the known extensions. -/
lemma extractPhase_ap_shape (env : Env) (url ap : String) (fs : FS) :
    (extractPhase env url ap fs).2.1 = ap ∨
      ∃ e ∈ known_exts,
        (extractPhase env url ap fs).2.1 = strReplace ap ".mp3" "" ++ e := by
  unfold extractPhase
  cases hp : probeLoop env (yt_dlp_paths env) with
  | none =>
    by_cases himp : env.importOk = false
    · simp [himp]
    · cases hl : env.libResult with
      | raises m => simp [himp, hl]
      | ok =>
        by_cases hex : fsExists (env.libEffect fs) ap = true
        · by_cases h2 : fsExists (env.libEffect fs) ap = false
          · simp [himp, hl, hex, h2]
          · simp [himp, hl, hex, h2]
        · cases hs : scanExts (env.libEffect fs) (strReplace ap ".mp3" "")
              known_exts with
          | none =>
            by_cases h2 : fsExists (env.libEffect fs) ap = false
            · simp [himp, hl, hex, hs, h2]
            · simp [himp, hl, hex, hs, h2]
          | some c =>
            obtain ⟨e, he, hc⟩ := scanExts_mem _ _ _ _ hs
            right
            refine ⟨e, he, ?_⟩
            simp [himp, hl, hex, hs, hc]
            split <;> rfl
  | some cmdPath =>
    cases hr : env.extResult with
    | exited code stderr => by_cases hc : code = 0 <;> simp [hr, hc]
    | timedOut => simp [hr]

/-! ## Reduction lemmas for the handler -/

lemma tryFinallyBlock_snd (env : Env) (vid url ap : String) (fs : FS) :
    (tryFinallyBlock env vid url ap fs).2
      = (cleanup env (extractPhase env url ap fs).2.1
          (extractPhase env url ap fs).2.2).2 := by
  unfold tryFinallyBlock
  cases hcl : (cleanup env (extractPhase env url ap fs).2.1
      (extractPhase env url ap fs).2.2).1 <;> simp [hcl]

lemma tryFinallyBlock_fst_noExc (env : Env) (vid url ap : String) (fs : FS)
    (hcl : (cleanup env (extractPhase env url ap fs).2.1
        (extractPhase env url ap fs).2.2).1 = none) :
    (tryFinallyBlock env vid url ap fs).1
      = match (extractPhase env url ap fs).1 with
        | ExtractRes.earlyReturn o => Except.ok o
        | ExtractRes.raised e => Except.error e
        | ExtractRes.proceed =>
          readPhase vid (extractPhase env url ap fs).2.1
            (extractPhase env url ap fs).2.2 := by
  unfold tryFinallyBlock
  simp [hcl]

lemma tryFinallyBlock_fst_exc (env : Env) (vid url ap : String) (fs : FS)
    (e : PyExc)
    (hcl : (cleanup env (extractPhase env url ap fs).2.1
        (extractPhase env url ap fs).2.2).1 = some e) :
    (tryFinallyBlock env vid url ap fs).1 = Except.error e := by
  unfold tryFinallyBlock
  simp [hcl]

lemma handler_post (env : Env) (vid : String) (h : ¬ vid = "") :
    handler env (postEvent vid) =
      match tryFinallyBlock env vid ("https://www.youtube.com/watch?v=" ++ vid)
          (env.tmpBase ++ ".mp3") (fsWrite env.fs0 (env.tmpBase ++ ".mp3") "") with
      | (Except.ok o, fs2) => (o, fs2)
      | (Except.error (PyExc.calledProcessError cmd code stderr), fs2) =>
        (Outcome.errExtraction
          (if stderr ≠ "" then pySlice stderr 200 else cpeStr cmd code), fs2)
      | (Except.error (PyExc.timeoutExpired cmd secs), fs2) =>
        (Outcome.errGeneric (teStr cmd secs), fs2)
      | (Except.error (PyExc.osError m), fs2) => (Outcome.errGeneric m, fs2) := by
  unfold handler postEvent
  simp [h]

lemma handler_snd (env : Env) (vid : String) (h : ¬ vid = "") :
    (handler env (postEvent vid)).2
      = (cleanup env
          (extractPhase env ("https://www.youtube.com/watch?v=" ++ vid)
            (env.tmpBase ++ ".mp3")
            (fsWrite env.fs0 (env.tmpBase ++ ".mp3") "")).2.1
          (extractPhase env ("https://www.youtube.com/watch?v=" ++ vid)
            (env.tmpBase ++ ".mp3")
            (fsWrite env.fs0 (env.tmpBase ++ ".mp3") "")).2.2).2 := by
  rw [handler_post env vid h]
  have hs := tryFinallyBlock_snd env vid ("https://www.youtube.com/watch?v=" ++ vid)
    (env.tmpBase ++ ".mp3") (fsWrite env.fs0 (env.tmpBase ++ ".mp3") "")
  rcases htf : tryFinallyBlock env vid ("https://www.youtube.com/watch?v=" ++ vid)
      (env.tmpBase ++ ".mp3") (fsWrite env.fs0 (env.tmpBase ++ ".mp3") "")
    with ⟨r, fs2⟩
  rw [htf] at hs
  rcases r with e | o
  · rcases e with ⟨cmd, code, stderr⟩ | ⟨cmd, secs⟩ | m <;> simpa using hs
  · simpa using hs

lemma handler_fst_of_ok (env : Env) (vid : String) (h : ¬ vid = "")
    (o : Outcome)
    (hok : (tryFinallyBlock env vid ("https://www.youtube.com/watch?v=" ++ vid)
        (env.tmpBase ++ ".mp3") (fsWrite env.fs0 (env.tmpBase ++ ".mp3") "")).1
      = Except.ok o) :
    (handler env (postEvent vid)).1 = o := by
  rw [handler_post env vid h]
  rcases htf : tryFinallyBlock env vid ("https://www.youtube.com/watch?v=" ++ vid)
      (env.tmpBase ++ ".mp3") (fsWrite env.fs0 (env.tmpBase ++ ".mp3") "")
    with ⟨r, fs2⟩
  rw [htf] at hok
  obtain rfl : r = Except.ok o := hok
  rfl

lemma handler_fst_of_error (env : Env) (vid : String) (h : ¬ vid = "")
    (e : PyExc)
    (herr : (tryFinallyBlock env vid ("https://www.youtube.com/watch?v=" ++ vid)
        (env.tmpBase ++ ".mp3") (fsWrite env.fs0 (env.tmpBase ++ ".mp3") "")).1
      = Except.error e) :
    (handler env (postEvent vid)).1 = excToOutcome e := by
  rw [handler_post env vid h]
  rcases htf : tryFinallyBlock env vid ("https://www.youtube.com/watch?v=" ++ vid)
      (env.tmpBase ++ ".mp3") (fsWrite env.fs0 (env.tmpBase ++ ".mp3") "")
    with ⟨r, fs2⟩
  rw [htf] at herr
  obtain rfl : r = Except.error e := herr
  rcases e with ⟨cmd, code, stderr⟩ | ⟨cmd, secs⟩ | m <;> rfl

lemma scanExts_found (fs : FS) (base : String) (exts : List String)
    (c : String) (h : scanExts fs base exts = some c) :
    fsExists fs c = true := by
  induction exts with
  | nil => cases h
  | cons e rest ih =>
    simp only [scanExts] at h
    by_cases hex : fsExists fs (base ++ e) = true
    · rw [if_pos hex] at h
      rw [← Option.some_inj.mp h]
      exact hex
    · rw [if_neg hex] at h
      exact ih h

lemma extractPhase_lib_scan (env : Env) (url ap : String) (fs : FS)
    (c : String)
    (hprobe : probeLoop env (yt_dlp_paths env) = none)
    (himp : env.importOk = true)
    (hlib : env.libResult = LibResult.ok)
    (hex : fsExists (env.libEffect fs) ap = false)
    (hs : scanExts (env.libEffect fs) (strReplace ap ".mp3" "") known_exts
      = some c) :
    extractPhase env url ap fs = (ExtractRes.proceed, c, env.libEffect fs) := by
  unfold extractPhase
  rw [hprobe]
  have hexc := scanExts_found _ _ _ _ hs
  simp [himp, hlib, hex, hs, hexc]

lemma extractPhase_lib_scanNone (env : Env) (url ap : String) (fs : FS)
    (hprobe : probeLoop env (yt_dlp_paths env) = none)
    (himp : env.importOk = true)
    (hlib : env.libResult = LibResult.ok)
    (hex : fsExists (env.libEffect fs) ap = false)
    (hs : scanExts (env.libEffect fs) (strReplace ap ".mp3" "") known_exts
      = none) :
    extractPhase env url ap fs
      = (ExtractRes.earlyReturn Outcome.errNoOutput, ap, env.libEffect fs) := by
  unfold extractPhase
  rw [hprobe]
  simp [himp, hlib, hex, hs]

/-- Exhaustive case analysis of how the extraction phase can end. -/
lemma extractPhase_fst_cases (env : Env) (url ap : String) (fs : FS) :
    (extractPhase env url ap fs).1 = ExtractRes.proceed
    ∨ (∃ e, (extractPhase env url ap fs).1 = ExtractRes.raised e)
    ∨ (extractPhase env url ap fs).1
        = ExtractRes.earlyReturn Outcome.errBackendUnavailable
    ∨ (∃ m, (extractPhase env url ap fs).1
        = ExtractRes.earlyReturn (Outcome.errModule m))
    ∨ (extractPhase env url ap fs).1
        = ExtractRes.earlyReturn Outcome.errNoOutput := by
  cases hp : probeLoop env (yt_dlp_paths env) with
  | some cmdPath =>
    cases hr : env.extResult with
    | exited code stderr =>
      by_cases hc : code = 0
      · subst hc
        left
        rw [extractPhase_ext_ok env url ap fs cmdPath stderr hp hr]
      · right; left
        exact ⟨_, by
          rw [extractPhase_ext_fail env url ap fs cmdPath stderr code hp hr hc]⟩
    | timedOut =>
      right; left
      exact ⟨_, by rw [extractPhase_ext_timeout env url ap fs cmdPath hp hr]⟩
  | none =>
    by_cases himp : env.importOk = false
    · right; right; left
      rw [extractPhase_noBackend env url ap fs hp himp]
    · have himp2 : env.importOk = true := by simpa using himp
      cases hl : env.libResult with
      | raises m =>
        right; right; right; left
        exact ⟨_, by rw [extractPhase_libRaises env url ap fs m hp himp2 hl]⟩
      | ok =>
        by_cases hex : fsExists (env.libEffect fs) ap = true
        · left
          rw [extractPhase_lib_present env url ap fs hp himp2 hl hex]
        · have hex2 : fsExists (env.libEffect fs) ap = false := by
            simpa using hex
          cases hs : scanExts (env.libEffect fs) (strReplace ap ".mp3" "")
              known_exts with
          | some c =>
            left
            rw [extractPhase_lib_scan env url ap fs c hp himp2 hl hex2 hs]
          | none =>
            right; right; right; right
            rw [extractPhase_lib_scanNone env url ap fs hp himp2 hl hex2 hs]

lemma osPathJoin_ne_empty (d n : String) : ¬ osPathJoin d n = "" := by
  intro hc
  have hs1 : ("/" : String).length = 1 := rfl
  have h1 : (osPathJoin d n).length = d.length + 1 + n.length := by
    show (d ++ "/" ++ n).length = d.length + 1 + n.length
    rw [String.length_append, String.length_append, hs1]
  rw [hc] at h1
  have h0 : ("" : String).length = 0 := rfl
  rw [h0] at h1
  omega

lemma pySlice_length_le (s : String) (n : Nat) : (pySlice s n).length ≤ n := by
  show (s.data.take n).length ≤ n
  rw [List.length_take]
  exact min_le_left _ _

/-- Any Success outcome of the handler carries a media type drawn from
the static table at the extension of the resolved path, and a filename
`audio_<identifier><extension>` with the same extension. -/
lemma handler_success_shape (env : Env) (vid ct fn body : String) (fsF : FS)
    (h : handler env (postEvent vid) = (Outcome.success ct fn body, fsF)) :
    ∃ ap : String,
      ct = contentTypeFor (strToLower (splitExt ap).2)
      ∧ fn = "audio_" ++ vid ++ strToLower (splitExt ap).2 := by
  by_cases hv : vid = ""
  · exfalso
    unfold handler postEvent at h
    simp [hv] at h
  · rw [handler_post env vid hv] at h
    rcases htf : tryFinallyBlock env vid ("https://www.youtube.com/watch?v=" ++ vid)
        (env.tmpBase ++ ".mp3") (fsWrite env.fs0 (env.tmpBase ++ ".mp3") "")
      with ⟨r, fs2⟩
    rw [htf] at h
    rcases r with e | o
    · rcases e with ⟨cmd, code, stderr⟩ | ⟨cmd, secs⟩ | m <;> simp at h
    · have ho : o = Outcome.success ct fn body := by
        have h1 := congrArg Prod.fst h
        simpa using h1
      subst ho
      have htf1 : (tryFinallyBlock env vid ("https://www.youtube.com/watch?v=" ++ vid)
          (env.tmpBase ++ ".mp3") (fsWrite env.fs0 (env.tmpBase ++ ".mp3") "")).1
          = Except.ok (Outcome.success ct fn body) := by rw [htf]
      cases hcl : (cleanup env
          (extractPhase env ("https://www.youtube.com/watch?v=" ++ vid)
            (env.tmpBase ++ ".mp3")
            (fsWrite env.fs0 (env.tmpBase ++ ".mp3") "")).2.1
          (extractPhase env ("https://www.youtube.com/watch?v=" ++ vid)
            (env.tmpBase ++ ".mp3")
            (fsWrite env.fs0 (env.tmpBase ++ ".mp3") "")).2.2).1 with
      | some e0 =>
        rw [tryFinallyBlock_fst_exc env vid ("https://www.youtube.com/watch?v=" ++ vid)
          (env.tmpBase ++ ".mp3") (fsWrite env.fs0 (env.tmpBase ++ ".mp3") "")
          e0 hcl] at htf1
        cases htf1
      | none =>
        rw [tryFinallyBlock_fst_noExc env vid ("https://www.youtube.com/watch?v=" ++ vid)
          (env.tmpBase ++ ".mp3")
          (fsWrite env.fs0 (env.tmpBase ++ ".mp3") "") hcl] at htf1
        rcases extractPhase_fst_cases env ("https://www.youtube.com/watch?v=" ++ vid)
            (env.tmpBase ++ ".mp3") (fsWrite env.fs0 (env.tmpBase ++ ".mp3") "")
          with hA | ⟨e0, hA⟩ | hA | ⟨m, hA⟩ | hA
        all_goals rw [hA] at htf1
        · have htf2 : readPhase vid
              (extractPhase env ("https://www.youtube.com/watch?v=" ++ vid)
                (env.tmpBase ++ ".mp3")
                (fsWrite env.fs0 (env.tmpBase ++ ".mp3") "")).2.1
              (extractPhase env ("https://www.youtube.com/watch?v=" ++ vid)
                (env.tmpBase ++ ".mp3")
                (fsWrite env.fs0 (env.tmpBase ++ ".mp3") "")).2.2
              = Except.ok (Outcome.success ct fn body) := htf1
          unfold readPhase at htf2
          cases hread : fsRead
              (extractPhase env ("https://www.youtube.com/watch?v=" ++ vid)
                (env.tmpBase ++ ".mp3")
                (fsWrite env.fs0 (env.tmpBase ++ ".mp3") "")).2.2
              (extractPhase env ("https://www.youtube.com/watch?v=" ++ vid)
                (env.tmpBase ++ ".mp3")
                (fsWrite env.fs0 (env.tmpBase ++ ".mp3") "")).2.1 with
          | none =>
            rw [hread] at htf2
            cases htf2
          | some data =>
            rw [hread] at htf2
            simp only [Except.ok.injEq, Outcome.success.injEq] at htf2
            exact ⟨(extractPhase env ("https://www.youtube.com/watch?v=" ++ vid)
                (env.tmpBase ++ ".mp3")
                (fsWrite env.fs0 (env.tmpBase ++ ".mp3") "")).2.1,
              htf2.1.symm, htf2.2.1.symm⟩
        · simp at htf1
        · simp at htf1
        · simp at htf1
        · simp at htf1

/-- On the external-executable path, a non-zero exit produces the
`Failed to extract audio` outcome with the message built from the
captured stderr truncated to 200 characters, or from the untruncated
exception string when stderr is empty. -/
lemma handler_cpe (env : Env) (vid cmdPath stderr : String) (code : Int)
    (h : ¬ vid = "")
    (hprobe : probeLoop env (yt_dlp_paths env) = some cmdPath)
    (hres : env.extResult = ProcResult.exited code stderr)
    (hcode : ¬ code = 0)
    (hnf : env.unlinkFails (env.tmpBase ++ ".mp3") = false) :
    (handler env (postEvent vid)).1
      = Outcome.errExtraction
          (if stderr ≠ "" then pySlice stderr 200
           else cpeStr [cmdPath, "-x", "--audio-format", "mp3",
             "--audio-quality", "0", "-o", env.tmpBase ++ ".mp3",
             "https://www.youtube.com/watch?v=" ++ vid] code) := by
  have hEP := extractPhase_ext_fail env ("https://www.youtube.com/watch?v=" ++ vid)
    (env.tmpBase ++ ".mp3") (fsWrite env.fs0 (env.tmpBase ++ ".mp3") "")
    cmdPath stderr code hprobe hres hcode
  have hcl : (cleanup env
      (extractPhase env ("https://www.youtube.com/watch?v=" ++ vid)
        (env.tmpBase ++ ".mp3") (fsWrite env.fs0 (env.tmpBase ++ ".mp3") "")).2.1
      (extractPhase env ("https://www.youtube.com/watch?v=" ++ vid)
        (env.tmpBase ++ ".mp3") (fsWrite env.fs0 (env.tmpBase ++ ".mp3") "")).2.2).1
      = none := by
    rw [hEP]
    exact cleanup_fst_of_unlinkOk env _ _ hnf
  have hfst := tryFinallyBlock_fst_noExc env vid
    ("https://www.youtube.com/watch?v=" ++ vid)
    (env.tmpBase ++ ".mp3") (fsWrite env.fs0 (env.tmpBase ++ ".mp3") "") hcl
  rw [hEP] at hfst
  have herr : (tryFinallyBlock env vid ("https://www.youtube.com/watch?v=" ++ vid)
      (env.tmpBase ++ ".mp3") (fsWrite env.fs0 (env.tmpBase ++ ".mp3") "")).1
      = Except.error (PyExc.calledProcessError
          [cmdPath, "-x", "--audio-format", "mp3", "--audio-quality", "0",
           "-o", env.tmpBase ++ ".mp3",
           "https://www.youtube.com/watch?v=" ++ vid] code stderr) := hfst
  exact handler_fst_of_error env vid h _ herr

/-- On the library path, a download exception produces the module-failure
outcome with the message truncated to 200 characters. -/
lemma handler_libRaises (env : Env) (vid m : String)
    (h : ¬ vid = "")
    (hprobe : probeLoop env (yt_dlp_paths env) = none)
    (himp : env.importOk = true)
    (hlib : env.libResult = LibResult.raises m)
    (hnf : env.unlinkFails (env.tmpBase ++ ".mp3") = false) :
    (handler env (postEvent vid)).1 = Outcome.errModule (pySlice m 200) := by
  have hEP := extractPhase_libRaises env ("https://www.youtube.com/watch?v=" ++ vid)
    (env.tmpBase ++ ".mp3") (fsWrite env.fs0 (env.tmpBase ++ ".mp3") "")
    m hprobe himp hlib
  have hcl : (cleanup env
      (extractPhase env ("https://www.youtube.com/watch?v=" ++ vid)
        (env.tmpBase ++ ".mp3") (fsWrite env.fs0 (env.tmpBase ++ ".mp3") "")).2.1
      (extractPhase env ("https://www.youtube.com/watch?v=" ++ vid)
        (env.tmpBase ++ ".mp3") (fsWrite env.fs0 (env.tmpBase ++ ".mp3") "")).2.2).1
      = none := by
    rw [hEP]
    exact cleanup_fst_of_unlinkOk env _ _ hnf
  have hfst := tryFinallyBlock_fst_noExc env vid
    ("https://www.youtube.com/watch?v=" ++ vid)
    (env.tmpBase ++ ".mp3") (fsWrite env.fs0 (env.tmpBase ++ ".mp3") "") hcl
  rw [hEP] at hfst
  have hok : (tryFinallyBlock env vid ("https://www.youtube.com/watch?v=" ++ vid)
      (env.tmpBase ++ ".mp3") (fsWrite env.fs0 (env.tmpBase ++ ".mp3") "")).1
      = Except.ok (Outcome.errModule (pySlice m 200)) := hfst
  exact handler_fst_of_ok env vid h _ hok

/-! ## Claim theorems -/

/-- Claim C6: if every external-executable candidate fails its liveness
check (the probe returns none) and the in-process extraction library
cannot be imported, the outcome is exactly the BackendUnavailable
failure (the `yt-dlp not found` error), and never an ExtractionFailed
failure (assuming the cleanup unlink of the scratch file does not
fail). -/
theorem C6_theorem (env : Env) (vid : String) (h : ¬ vid = "")
    (hprobe : probeLoop env (yt_dlp_paths env) = none)
    (himp : env.importOk = false)
    (hnf : env.unlinkFails (env.tmpBase ++ ".mp3") = false) :
    (handler env (postEvent vid)).1 = Outcome.errBackendUnavailable
    ∧ ∀ m, ¬ (handler env (postEvent vid)).1 = Outcome.errExtraction m := by
  have hEP := extractPhase_noBackend env ("https://www.youtube.com/watch?v=" ++ vid)
    (env.tmpBase ++ ".mp3") (fsWrite env.fs0 (env.tmpBase ++ ".mp3") "") hprobe himp
  have hcl : (cleanup env
      (extractPhase env ("https://www.youtube.com/watch?v=" ++ vid)
        (env.tmpBase ++ ".mp3") (fsWrite env.fs0 (env.tmpBase ++ ".mp3") "")).2.1
      (extractPhase env ("https://www.youtube.com/watch?v=" ++ vid)
        (env.tmpBase ++ ".mp3") (fsWrite env.fs0 (env.tmpBase ++ ".mp3") "")).2.2).1
      = none := by
    rw [hEP]
    exact cleanup_fst_of_unlinkOk env _ _ hnf
  have hfst := tryFinallyBlock_fst_noExc env vid
    ("https://www.youtube.com/watch?v=" ++ vid)
    (env.tmpBase ++ ".mp3") (fsWrite env.fs0 (env.tmpBase ++ ".mp3") "") hcl
  rw [hEP] at hfst
  have hok : (tryFinallyBlock env vid ("https://www.youtube.com/watch?v=" ++ vid)
      (env.tmpBase ++ ".mp3") (fsWrite env.fs0 (env.tmpBase ++ ".mp3") "")).1
      = Except.ok Outcome.errBackendUnavailable := hfst
  have h1 := handler_fst_of_ok env vid h _ hok
  exact ⟨h1, fun m => by rw [h1]; simp⟩

/-- Witness for C6 at a concrete environment where every candidate fails
to launch and the library import fails. -/
theorem C6_witness :
    (handler c6Env (postEvent "abc123")).1 = Outcome.errBackendUnavailable :=
  (C6_theorem c6Env "abc123" (by decide) (by decide) rfl rfl).1

/-- Claim C3: after the handler returns (for a request that passes
validation), no file remains on disk under the request scratch base for
any of the known extensions, assuming unlinks succeed and the scratch
base name is well formed (it contains no `.mp3` infix and the extension
split of `base ++ ext` is `(base, ext)`, as holds for real
`NamedTemporaryFile` names). -/
theorem C3_theorem (env : Env) (vid : String) (h : ¬ vid = "")
    (hnf : ∀ p, env.unlinkFails p = false)
    (hsplit0 : splitExt (env.tmpBase ++ ".mp3") = (env.tmpBase, ".mp3"))
    (hrepl : strReplace (env.tmpBase ++ ".mp3") ".mp3" "" = env.tmpBase)
    (hsplit : ∀ e ∈ known_exts, splitExt (env.tmpBase ++ e) = (env.tmpBase, e))
    (ext : String) (hmem : ext ∈ known_exts) :
    fsExists (handler env (postEvent vid)).2 (env.tmpBase ++ ext) = false := by
  rw [handler_snd env vid h]
  have hbase : (splitExt (extractPhase env ("https://www.youtube.com/watch?v=" ++ vid)
      (env.tmpBase ++ ".mp3") (fsWrite env.fs0 (env.tmpBase ++ ".mp3") "")).2.1).1
      = env.tmpBase := by
    rcases extractPhase_ap_shape env ("https://www.youtube.com/watch?v=" ++ vid)
        (env.tmpBase ++ ".mp3") (fsWrite env.fs0 (env.tmpBase ++ ".mp3") "")
      with h1 | ⟨x, hx, h2⟩
    · rw [h1, hsplit0]
    · rw [h2, hrepl, hsplit x hx]
  have hrm := cleanup_removes env
    (extractPhase env ("https://www.youtube.com/watch?v=" ++ vid)
      (env.tmpBase ++ ".mp3") (fsWrite env.fs0 (env.tmpBase ++ ".mp3") "")).2.1
    (extractPhase env ("https://www.youtube.com/watch?v=" ++ vid)
      (env.tmpBase ++ ".mp3") (fsWrite env.fs0 (env.tmpBase ++ ".mp3") "")).2.2
    hnf ext hmem
  rw [hbase] at hrm
  exact hrm

/-- Witness for C3: under `extEnv` (where the backend wrote a stray
`.m4a` sibling) the `.m4a` file is gone after the request. -/
theorem C3_witness :
    fsExists (handler extEnv (postEvent "abc123")).2 ("/tmp/t1" ++ ".m4a")
      = false :=
  C3_theorem extEnv "abc123" (by decide) (fun p => rfl) (by decide) (by decide)
    (by decide) ".m4a" (by decide)

/-- Claim C9: the handler always returns a structured response (status
code 200, 400, 405 or 500), and any exception escaping the inner
try/finally is caught at the boundary and converted to a structured
failure outcome with status 500, never propagated. -/
theorem C9_theorem :
    (∀ env : Env, ∀ event : Event,
      (handler env event).1.statusCode = 200
      ∨ (handler env event).1.statusCode = 400
      ∨ (handler env event).1.statusCode = 405
      ∨ (handler env event).1.statusCode = 500)
    ∧ (∀ env : Env, ∀ vid : String, ∀ e : PyExc, ∀ fsF : FS, ¬ vid = "" →
      tryFinallyBlock env vid ("https://www.youtube.com/watch?v=" ++ vid)
        (env.tmpBase ++ ".mp3") (fsWrite env.fs0 (env.tmpBase ++ ".mp3") "")
        = (Except.error e, fsF) →
      ∃ m : String,
        ((handler env (postEvent vid)).1 = Outcome.errExtraction m
          ∨ (handler env (postEvent vid)).1 = Outcome.errGeneric m)
        ∧ (handler env (postEvent vid)).1.statusCode = 500) := by
  constructor
  · intro env event
    cases hO : (handler env event).1 <;> simp [Outcome.statusCode]
  · intro env vid e fsF h htf
    have herr : (tryFinallyBlock env vid ("https://www.youtube.com/watch?v=" ++ vid)
        (env.tmpBase ++ ".mp3") (fsWrite env.fs0 (env.tmpBase ++ ".mp3") "")).1
        = Except.error e := by rw [htf]
    have h1 := handler_fst_of_error env vid h e herr
    rcases e with ⟨cmd, code, stderr⟩ | ⟨cmd, secs⟩ | m
    · exact ⟨_, Or.inl h1, by rw [h1]; rfl⟩
    · exact ⟨teStr cmd secs, Or.inr h1, by rw [h1]; rfl⟩
    · exact ⟨m, Or.inr h1, by rw [h1]; rfl⟩

/-- Witness for C9 at a concrete environment whose extraction subprocess
times out: the escaping TimeoutExpired is converted to a 500 failure. -/
theorem C9_witness : (handler c5Env (postEvent "abc123")).1.statusCode = 500 := by
  obtain ⟨m, hm⟩ := C9_theorem.2 c5Env "abc123"
    (PyExc.timeoutExpired ["/usr/local/bin/yt-dlp", "-x", "--audio-format",
      "mp3", "--audio-quality", "0", "-o", "/tmp/t1.mp3",
      "https://www.youtube.com/watch?v=abc123"] 300)
    [] (by decide) (by rfl)
  exact hm.2

/-- Claim C10: scratch allocation physically creates an empty file at
`<scratch-base>.mp3` before extraction, and consequently, when the
in-process library backend runs without touching the filesystem and
reports success, the extension-scan fallback never triggers and the
handler returns Success with the empty payload and media type
`audio/mpeg`. -/
theorem C10_theorem :
    (∀ env : Env,
      fsExists (fsWrite env.fs0 (env.tmpBase ++ ".mp3") "")
        (env.tmpBase ++ ".mp3") = true)
    ∧ (∀ env : Env, ∀ vid : String, ¬ vid = "" →
      probeLoop env (yt_dlp_paths env) = none →
      env.importOk = true →
      env.libResult = LibResult.ok →
      (∀ fs : FS, env.libEffect fs = fs) →
      splitExt (env.tmpBase ++ ".mp3") = (env.tmpBase, ".mp3") →
      env.unlinkFails (env.tmpBase ++ ".mp3") = false →
      (handler env (postEvent vid)).1
        = Outcome.success "audio/mpeg" ("audio_" ++ vid ++ ".mp3") "") := by
  constructor
  · intro env
    exact fsExists_fsWrite_self _ _ _
  · intro env vid h hprobe himp hlib hid hsplit hnf
    have hex : fsExists (env.libEffect (fsWrite env.fs0 (env.tmpBase ++ ".mp3") ""))
        (env.tmpBase ++ ".mp3") = true := by
      rw [hid]
      exact fsExists_fsWrite_self _ _ _
    have hEP := extractPhase_lib_present env ("https://www.youtube.com/watch?v=" ++ vid)
      (env.tmpBase ++ ".mp3") (fsWrite env.fs0 (env.tmpBase ++ ".mp3") "")
      hprobe himp hlib hex
    have hcl : (cleanup env
        (extractPhase env ("https://www.youtube.com/watch?v=" ++ vid)
          (env.tmpBase ++ ".mp3") (fsWrite env.fs0 (env.tmpBase ++ ".mp3") "")).2.1
        (extractPhase env ("https://www.youtube.com/watch?v=" ++ vid)
          (env.tmpBase ++ ".mp3") (fsWrite env.fs0 (env.tmpBase ++ ".mp3") "")).2.2).1
        = none := by
      rw [hEP]
      exact cleanup_fst_of_unlinkOk env _ _ hnf
    have hfst := tryFinallyBlock_fst_noExc env vid
      ("https://www.youtube.com/watch?v=" ++ vid)
      (env.tmpBase ++ ".mp3") (fsWrite env.fs0 (env.tmpBase ++ ".mp3") "") hcl
    rw [hEP] at hfst
    have hok : (tryFinallyBlock env vid ("https://www.youtube.com/watch?v=" ++ vid)
        (env.tmpBase ++ ".mp3") (fsWrite env.fs0 (env.tmpBase ++ ".mp3") "")).1
        = readPhase vid (env.tmpBase ++ ".mp3")
            (env.libEffect (fsWrite env.fs0 (env.tmpBase ++ ".mp3") "")) := hfst
    have hread : fsRead (env.libEffect (fsWrite env.fs0 (env.tmpBase ++ ".mp3") ""))
        (env.tmpBase ++ ".mp3") = some "" := by
      rw [hid]
      exact fsRead_fsWrite_self _ _ _
    have hrp : readPhase vid (env.tmpBase ++ ".mp3")
        (env.libEffect (fsWrite env.fs0 (env.tmpBase ++ ".mp3") ""))
        = Except.ok (Outcome.success "audio/mpeg" ("audio_" ++ vid ++ ".mp3") "") := by
      unfold readPhase
      rw [hread]
      have hlow : strToLower (splitExt (env.tmpBase ++ ".mp3")).2 = ".mp3" := by
        rw [hsplit]
        show strToLower ".mp3" = ".mp3"
        decide
      rw [hlow]
      rfl
    rw [hrp] at hok
    exact handler_fst_of_ok env vid h _ hok

/-- Witness for C10 at a concrete library-mode environment that writes
nothing: Success with the empty payload and media type audio/mpeg. -/
theorem C10_witness :
    (handler c10Env (postEvent "abc123")).1
      = Outcome.success "audio/mpeg" ("audio_" ++ "abc123" ++ ".mp3") "" :=
  C10_theorem.2 c10Env "abc123" (by decide) (by decide) rfl rfl
    (fun fs => rfl) (by decide) rfl

/-- Claim C8: the probe builds its candidate list in the order
runtime-adjacent executable (plus its Windows variant), the two
package-manager locations, the search-path lookup, then the bare name,
dropping null entries; under the realism assumption that a version check
cannot exit zero for a non-existent path, it selects the first candidate
whose bounded check exits zero; and a timeout or launch failure on one
candidate continues to the next. -/
theorem C8_theorem :
    (∀ env : Env, ∀ w : String, env.whichResult = some w → ¬ w = "" →
      yt_dlp_paths env =
        [osPathJoin env.pythonBinDir "yt-dlp",
         osPathJoin env.pythonBinDir "yt-dlp.exe",
         "/opt/homebrew/bin/yt-dlp", "/usr/local/bin/yt-dlp", w, "yt-dlp"])
    ∧ (∀ env : Env, env.whichResult = none →
      yt_dlp_paths env =
        [osPathJoin env.pythonBinDir "yt-dlp",
         osPathJoin env.pythonBinDir "yt-dlp.exe",
         "/opt/homebrew/bin/yt-dlp", "/usr/local/bin/yt-dlp", "yt-dlp"])
    ∧ (∀ env : Env, ∀ l : List String,
      (∀ p ∈ l, ¬ p = "yt-dlp" → env.probeExists p = false →
        ¬ env.check p = CheckResult.exitZero) →
      probeLoop env l = l.find? (fun p => env.check p == CheckResult.exitZero))
    ∧ (∀ env : Env, ∀ p : String, ∀ rest : List String,
      env.check p = CheckResult.timedOut ∨ env.check p = CheckResult.launchFail →
      probeLoop env (p :: rest) = probeLoop env rest) := by
  refine ⟨?_, ?_, ?_, ?_⟩
  · intro env w hw hne
    unfold yt_dlp_paths yt_dlp_paths_raw
    rw [hw]
    simp [osPathJoin_ne_empty env.pythonBinDir "yt-dlp",
      osPathJoin_ne_empty env.pythonBinDir "yt-dlp.exe", hne]
  · intro env hw
    unfold yt_dlp_paths yt_dlp_paths_raw
    rw [hw]
    simp [osPathJoin_ne_empty env.pythonBinDir "yt-dlp",
      osPathJoin_ne_empty env.pythonBinDir "yt-dlp.exe"]
  · intro env l hyp
    induction l with
    | nil => rfl
    | cons p rest ih =>
      have htail := ih (fun x hx h1 h2 => hyp x (List.mem_cons_of_mem _ hx) h1 h2)
      by_cases hc : env.check p = CheckResult.exitZero
      · have hgate : (p == "yt-dlp" || env.probeExists p) = true := by
          by_cases hp : p = "yt-dlp"
          · simp [hp]
          · by_cases hpe : env.probeExists p = true
            · simp [hpe]
            · exact absurd hc
                (hyp p (List.mem_cons_self _ _) hp (by simpa using hpe))
        have hcb : (env.check p == CheckResult.exitZero) = true := by simp [hc]
        simp [probeLoop, List.find?_cons, hgate, hcb]
      · have hcb : (env.check p == CheckResult.exitZero) = false := by simp [hc]
        simp [probeLoop, List.find?_cons, hcb, htail]
  · intro env p rest hor
    have hcb : (env.check p == CheckResult.exitZero) = false := by
      rcases hor with h1 | h1 <;> simp [h1]
    simp [probeLoop, hcb]

/-- Witness for C8: at the concrete environment the probe loop agrees
with first-match selection over the candidate list. -/
theorem C8_witness :
    probeLoop extEnv (yt_dlp_paths extEnv)
      = (yt_dlp_paths extEnv).find?
          (fun p => extEnv.check p == CheckResult.exitZero) :=
  C8_theorem.2.2.1 extEnv (yt_dlp_paths extEnv) (by decide)

/-- Claim C1 counterexample: with the external-executable backend
succeeding and writing `<scratch-base>.m4a` for identifier `abc123`, the
handler returns media type `audio/mpeg` and filename `audio_abc123.mp3`
(it reads the preallocated `.mp3` scratch file and never scans for the
`.m4a`), not `audio/mp4` and `audio_abc123.m4a` as the claim states. -/
theorem C1_counterexample :
    fsExists (extEnv.extEffect (fsWrite extEnv.fs0 "/tmp/t1.mp3" ""))
        "/tmp/t1.m4a" = true
    ∧ (handler extEnv (postEvent "abc123")).1
        = Outcome.success "audio/mpeg" "audio_abc123.mp3" ""
    ∧ ¬ "audio/mpeg" = "audio/mp4"
    ∧ ¬ "audio_abc123.mp3" = "audio_abc123.m4a" := by
  refine ⟨by decide, by decide, by decide, by decide⟩

/-- Claim C1 (amended): every Success response draws its media type from
the static table at the extension of the resolved output file, with
filename `audio_<identifier><extension>`; but in external-executable
mode the resolved file is always the preallocated `<scratch-base>.mp3`,
so a successful external extraction yields media type `audio/mpeg`,
filename `audio_<identifier>.mp3` and the bytes of the `.mp3` path —
even when the backend wrote `<scratch-base>.m4a`. -/
theorem C1_amended :
    (∀ env : Env, ∀ vid ct fn body : String, ∀ fsF : FS,
      handler env (postEvent vid) = (Outcome.success ct fn body, fsF) →
      ∃ ap : String,
        ct = contentTypeFor (strToLower (splitExt ap).2)
        ∧ fn = "audio_" ++ vid ++ strToLower (splitExt ap).2)
    ∧ (∀ env : Env, ∀ vid cmdPath st d : String, ¬ vid = "" →
      probeLoop env (yt_dlp_paths env) = some cmdPath →
      env.extResult = ProcResult.exited 0 st →
      fsRead (env.extEffect (fsWrite env.fs0 (env.tmpBase ++ ".mp3") ""))
        (env.tmpBase ++ ".mp3") = some d →
      splitExt (env.tmpBase ++ ".mp3") = (env.tmpBase, ".mp3") →
      env.unlinkFails (env.tmpBase ++ ".mp3") = false →
      (handler env (postEvent vid)).1
        = Outcome.success "audio/mpeg" ("audio_" ++ vid ++ ".mp3") d) := by
  constructor
  · intro env vid ct fn body fsF h
    exact handler_success_shape env vid ct fn body fsF h
  · intro env vid cmdPath st d h hprobe hres hread hsplit hnf
    have hEP := extractPhase_ext_ok env ("https://www.youtube.com/watch?v=" ++ vid)
      (env.tmpBase ++ ".mp3") (fsWrite env.fs0 (env.tmpBase ++ ".mp3") "")
      cmdPath st hprobe hres
    have hcl : (cleanup env
        (extractPhase env ("https://www.youtube.com/watch?v=" ++ vid)
          (env.tmpBase ++ ".mp3") (fsWrite env.fs0 (env.tmpBase ++ ".mp3") "")).2.1
        (extractPhase env ("https://www.youtube.com/watch?v=" ++ vid)
          (env.tmpBase ++ ".mp3") (fsWrite env.fs0 (env.tmpBase ++ ".mp3") "")).2.2).1
        = none := by
      rw [hEP]
      exact cleanup_fst_of_unlinkOk env _ _ hnf
    have hfst := tryFinallyBlock_fst_noExc env vid
      ("https://www.youtube.com/watch?v=" ++ vid)
      (env.tmpBase ++ ".mp3") (fsWrite env.fs0 (env.tmpBase ++ ".mp3") "") hcl
    rw [hEP] at hfst
    have hok : (tryFinallyBlock env vid ("https://www.youtube.com/watch?v=" ++ vid)
        (env.tmpBase ++ ".mp3") (fsWrite env.fs0 (env.tmpBase ++ ".mp3") "")).1
        = readPhase vid (env.tmpBase ++ ".mp3")
            (env.extEffect (fsWrite env.fs0 (env.tmpBase ++ ".mp3") "")) := hfst
    have hrp : readPhase vid (env.tmpBase ++ ".mp3")
        (env.extEffect (fsWrite env.fs0 (env.tmpBase ++ ".mp3") ""))
        = Except.ok (Outcome.success "audio/mpeg" ("audio_" ++ vid ++ ".mp3") d) := by
      unfold readPhase
      rw [hread]
      have hlow : strToLower (splitExt (env.tmpBase ++ ".mp3")).2 = ".mp3" := by
        rw [hsplit]
        show strToLower ".mp3" = ".mp3"
        decide
      rw [hlow]
      rfl
    rw [hrp] at hok
    exact handler_fst_of_ok env vid h _ hok

/-- Witness for C1 (amended) at the concrete environment: the external
backend succeeded, yet the response is `audio/mpeg` with the `.mp3`
filename and the preallocated file empty payload. -/
theorem C1_witness :
    probeLoop extEnv (yt_dlp_paths extEnv) = some "/usr/local/bin/yt-dlp"
    ∧ (handler extEnv (postEvent "abc123")).1
        = Outcome.success "audio/mpeg" ("audio_" ++ "abc123" ++ ".mp3") "" :=
  ⟨by decide, C1_amended.2 extEnv "abc123" "/usr/local/bin/yt-dlp" "" ""
    (by decide) (by decide) rfl (by decide) (by decide) rfl⟩

/-- Claim C2 counterexample: the same request succeeds under `extEnv`,
but when the unlink of the resolved scratch file fails during cleanup
(`c2FailEnv` differs from `extEnv` only in that), the Success outcome is
replaced by a generic 500 failure carrying the unlink OSError. -/
theorem C2_counterexample :
    (handler extEnv (postEvent "abc123")).1
      = Outcome.success "audio/mpeg" "audio_abc123.mp3" ""
    ∧ (handler c2FailEnv (postEvent "abc123")).1
      = Outcome.errGeneric "[Errno 13] Permission denied: '/tmp/t1.mp3'"
    ∧ (handler c2FailEnv (postEvent "abc123")).1.statusCode = 500 := by
  refine ⟨by decide, by decide, by decide⟩

/-- Claim C2 (amended): cleanup runs exactly once on every exit path
(the final filesystem is always the cleanup of the extraction-phase
state); a file that does not exist is a no-op; an unlink failure on a
sibling file never raises (the primary outcome is preserved whenever the
unlink of the resolved path succeeds); but an unlink failure on the
resolved `audio_path` itself raises an OSError out of the finally block
and replaces the request primary outcome. -/
theorem C2_amended :
    (∀ env : Env, ∀ vid : String, ¬ vid = "" →
      (handler env (postEvent vid)).2
        = (cleanup env
            (extractPhase env ("https://www.youtube.com/watch?v=" ++ vid)
              (env.tmpBase ++ ".mp3")
              (fsWrite env.fs0 (env.tmpBase ++ ".mp3") "")).2.1
            (extractPhase env ("https://www.youtube.com/watch?v=" ++ vid)
              (env.tmpBase ++ ".mp3")
              (fsWrite env.fs0 (env.tmpBase ++ ".mp3") "")).2.2).2)
    ∧ (∀ env : Env, ∀ ap : String, ∀ fs : FS,
      fsExists fs ap = false →
      (∀ e ∈ known_exts, fsExists fs ((splitExt ap).1 ++ e) = false) →
      cleanup env ap fs = (none, fs))
    ∧ (∀ env : Env, ∀ ap : String, ∀ fs : FS,
      env.unlinkFails ap = false → (cleanup env ap fs).1 = none)
    ∧ (∀ env : Env, ∀ ap : String, ∀ fs : FS,
      fsExists fs ap = true → env.unlinkFails ap = true →
      cleanup env ap fs = (some (PyExc.osError (env.unlinkErrMsg ap)), fs)) := by
  refine ⟨?_, ?_, ?_, ?_⟩
  · intro env vid h
    exact handler_snd env vid h
  · intro env ap fs h1 h2
    exact cleanup_noop env ap fs h1 h2
  · intro env ap fs h1
    exact cleanup_fst_of_unlinkOk env ap fs h1
  · intro env ap fs h1 h2
    exact cleanup_of_fail env ap fs h1 h2

/-- Witness for C2 (amended): a no-op cleanup on an empty filesystem, and
a raising cleanup when the primary unlink fails on an existing file. -/
theorem C2_witness :
    cleanup extEnv "/tmp/t1.mp3" [] = (none, [])
    ∧ (cleanup c2FailEnv "/tmp/t1.mp3" [("/tmp/t1.mp3", "")]).1
      = some (PyExc.osError "[Errno 13] Permission denied: '/tmp/t1.mp3'") := by
  constructor
  · exact C2_amended.2.1 extEnv "/tmp/t1.mp3" [] (by decide) (by decide)
  · have h := C2_amended.2.2.2 c2FailEnv "/tmp/t1.mp3" [("/tmp/t1.mp3", "")]
      (by decide) rfl
    rw [h]
    decide

/-- Claim C4 counterexample: the backend exits 1 with empty stderr and a
long identifier; the message falls back to the untruncated
`str(CalledProcessError)`, whose length exceeds the 200-character
bound. -/
theorem C4_counterexample :
    (handler c4Env (postEvent longVid)).1
      = Outcome.errExtraction (cpeStr longCmd 1)
    ∧ 200 < (cpeStr longCmd 1).length := by
  refine ⟨by decide, by decide⟩

/-- Claim C4 (amended): a non-zero exit of the external backend yields
the ExtractionFailed outcome whose message is the stderr truncated to
200 characters when stderr is non-empty (hence within the bound), and
the untruncated `str(CalledProcessError)` when stderr is empty (which
may exceed the bound). -/
theorem C4_amended (env : Env) (vid cmdPath stderr : String) (code : Int)
    (h : ¬ vid = "")
    (hprobe : probeLoop env (yt_dlp_paths env) = some cmdPath)
    (hres : env.extResult = ProcResult.exited code stderr)
    (hcode : ¬ code = 0)
    (hnf : env.unlinkFails (env.tmpBase ++ ".mp3") = false) :
    (handler env (postEvent vid)).1
      = Outcome.errExtraction
          (if stderr ≠ "" then pySlice stderr 200
           else cpeStr [cmdPath, "-x", "--audio-format", "mp3",
             "--audio-quality", "0", "-o", env.tmpBase ++ ".mp3",
             "https://www.youtube.com/watch?v=" ++ vid] code)
    ∧ (¬ stderr = "" → (pySlice stderr 200).length ≤ 200) := by
  constructor
  · exact handler_cpe env vid cmdPath stderr code h hprobe hres hcode hnf
  · intro hs
    exact pySlice_length_le stderr 200

/-- Witness for C4 (amended), matching the spec scenario: stderr
`video unavailable` on exit status 1 yields ExtractionFailed with the
message `video unavailable` (within the bound, and containing the
stderr verbatim). -/
theorem C4_witness :
    (handler c4sEnv (postEvent "abc123")).1
      = Outcome.errExtraction "video unavailable" := by
  have h := C4_amended c4sEnv "abc123" "/usr/local/bin/yt-dlp"
    "video unavailable" 1 (by decide) (by decide) rfl (by decide) rfl
  rw [h.1]
  decide

/-- Claim C5 counterexample: the extraction subprocess times out with a
long identifier; the generic handler surfaces the untruncated
`str(TimeoutExpired)`, whose length exceeds the 200-character bound. -/
theorem C5_counterexample :
    (handler c5Env (postEvent longVid)).1
      = Outcome.errGeneric (teStr longCmd 300)
    ∧ 200 < (teStr longCmd 300).length := by
  refine ⟨by decide, by decide⟩

/-- Claim C5 (amended): diagnostic text is truncated to 200 characters
on the library-exception path and on the non-empty-stderr subprocess
path; the remaining failure paths (the generic exception handler and the
empty-stderr fallback) surface untruncated text. -/
theorem C5_amended :
    (∀ env : Env, ∀ vid m : String, ¬ vid = "" →
      probeLoop env (yt_dlp_paths env) = none →
      env.importOk = true →
      env.libResult = LibResult.raises m →
      env.unlinkFails (env.tmpBase ++ ".mp3") = false →
      (handler env (postEvent vid)).1 = Outcome.errModule (pySlice m 200)
        ∧ (pySlice m 200).length ≤ 200)
    ∧ (∀ env : Env, ∀ vid cmdPath stderr : String, ∀ code : Int, ¬ vid = "" →
      probeLoop env (yt_dlp_paths env) = some cmdPath →
      env.extResult = ProcResult.exited code stderr →
      ¬ code = 0 → ¬ stderr = "" →
      env.unlinkFails (env.tmpBase ++ ".mp3") = false →
      (handler env (postEvent vid)).1 = Outcome.errExtraction (pySlice stderr 200)
        ∧ (pySlice stderr 200).length ≤ 200) := by
  constructor
  · intro env vid m h hprobe himp hlib hnf
    exact ⟨handler_libRaises env vid m h hprobe himp hlib hnf,
      pySlice_length_le m 200⟩
  · intro env vid cmdPath stderr code h hprobe hres hcode hse hnf
    have h1 := handler_cpe env vid cmdPath stderr code h hprobe hres hcode hnf
    rw [if_pos hse] at h1
    exact ⟨h1, pySlice_length_le stderr 200⟩

/-- Witness for C5 (amended): a concrete library exception surfaces its
message truncated (here `boom`, unchanged by truncation). -/
theorem C5_witness :
    (handler c5wEnv (postEvent "abc123")).1
      = Outcome.errModule (pySlice "boom" 200)
    ∧ (pySlice "boom" 200).length ≤ 200 :=
  C5_amended.1 c5wEnv "abc123" "boom" (by decide) (by decide) rfl rfl rfl

/-- Claim C7 counterexample: in external-executable mode the backend
exits 0 having deleted the scratch file and written nothing — no file
exists under the scratch base for any known extension — yet the outcome
is the generic read-failure error, not the NoOutputProduced failure:
the external path has no output-resolution check. -/
theorem C7_counterexample :
    fsExists (c7Env.extEffect (fsWrite c7Env.fs0 "/tmp/t1.mp3" ""))
        "/tmp/t1.m4a" = false
    ∧ fsExists (c7Env.extEffect (fsWrite c7Env.fs0 "/tmp/t1.mp3" ""))
        "/tmp/t1.webm" = false
    ∧ fsExists (c7Env.extEffect (fsWrite c7Env.fs0 "/tmp/t1.mp3" ""))
        "/tmp/t1.opus" = false
    ∧ fsExists (c7Env.extEffect (fsWrite c7Env.fs0 "/tmp/t1.mp3" ""))
        "/tmp/t1.mp3" = false
    ∧ fsExists (c7Env.extEffect (fsWrite c7Env.fs0 "/tmp/t1.mp3" ""))
        "/tmp/t1.mp4" = false
    ∧ (handler c7Env (postEvent "abc123")).1
        = Outcome.errGeneric (fnfStr "/tmp/t1.mp3")
    ∧ ¬ (handler c7Env (postEvent "abc123")).1 = Outcome.errNoOutput := by
  refine ⟨by decide, by decide, by decide, by decide, by decide, by decide,
    by decide⟩

/-- Claim C7 (amended): in in-process-library mode, when extraction
reports success but no file exists under the scratch base for the
expected path or any known extension, the outcome is the
NoOutputProduced failure; the external-executable mode has no such
check (see the counterexample). -/
theorem C7_amended (env : Env) (vid : String) (h : ¬ vid = "")
    (hprobe : probeLoop env (yt_dlp_paths env) = none)
    (himp : env.importOk = true)
    (hlib : env.libResult = LibResult.ok)
    (hap : fsExists (env.libEffect (fsWrite env.fs0 (env.tmpBase ++ ".mp3") ""))
      (env.tmpBase ++ ".mp3") = false)
    (hscan : ∀ e ∈ known_exts,
      fsExists (env.libEffect (fsWrite env.fs0 (env.tmpBase ++ ".mp3") ""))
        (strReplace (env.tmpBase ++ ".mp3") ".mp3" "" ++ e) = false) :
    (handler env (postEvent vid)).1 = Outcome.errNoOutput := by
  have hEP := extractPhase_lib_none env ("https://www.youtube.com/watch?v=" ++ vid)
    (env.tmpBase ++ ".mp3") (fsWrite env.fs0 (env.tmpBase ++ ".mp3") "")
    hprobe himp hlib hap hscan
  have hcl : (cleanup env
      (extractPhase env ("https://www.youtube.com/watch?v=" ++ vid)
        (env.tmpBase ++ ".mp3") (fsWrite env.fs0 (env.tmpBase ++ ".mp3") "")).2.1
      (extractPhase env ("https://www.youtube.com/watch?v=" ++ vid)
        (env.tmpBase ++ ".mp3") (fsWrite env.fs0 (env.tmpBase ++ ".mp3") "")).2.2).1
      = none := by
    rw [hEP]
    exact cleanup_fst_of_absent env _ _ hap
  have hfst := tryFinallyBlock_fst_noExc env vid
    ("https://www.youtube.com/watch?v=" ++ vid)
    (env.tmpBase ++ ".mp3") (fsWrite env.fs0 (env.tmpBase ++ ".mp3") "") hcl
  rw [hEP] at hfst
  have hok : (tryFinallyBlock env vid ("https://www.youtube.com/watch?v=" ++ vid)
      (env.tmpBase ++ ".mp3") (fsWrite env.fs0 (env.tmpBase ++ ".mp3") "")).1
      = Except.ok Outcome.errNoOutput := hfst
  exact handler_fst_of_ok env vid h _ hok

/-- Witness for C7 (amended) at a concrete library-mode environment
whose download call deletes the scratch file and writes nothing. -/
theorem C7_witness :
    (handler c7wEnv (postEvent "abc123")).1 = Outcome.errNoOutput :=
  C7_amended c7wEnv "abc123" (by decide) (by decide) rfl rfl (by decide)
    (by decide)

end TonePath
